import Mathlib

/-!
Shallow embedding of `bluesky_adaptive/agents/simple.py`: the agent mixins
SequentialAgentBase, SklearnEstimatorAgentBase, DecompositionAgentBase and
ClusterAgentBase.  Python values that may be scalars or numpy arrays are
modelled by `PyVal` over ℚ; numpy boolean results by `NpBool`; Python
exceptions by `Except` with a `PyError` payload.  Mutable attribute state is
passed explicitly through each method.
-/

namespace BlueskyAdaptive

/-- A Python value that is either a scalar or an array of scalars
(`Union[float, ArrayLike]` in the source). Scalars are modelled as ℚ. -/
inductive PyVal where
  | scalar (x : ℚ)
  | array (xs : List ℚ)
deriving DecidableEq, Repr

/-- The Python exceptions that the embedded methods can raise. -/
inductive PyError where
  | stopIteration
  | valueError
  | zeroDivisionError
  | notImplementedError
  | indexError
deriving DecidableEq, Repr

/-- Result of a numpy elementwise comparison: a 0-d boolean for a scalar
operand, a boolean array for an array operand. -/
inductive NpBool where
  | scalar (b : Bool)
  | array (bs : List Bool)
deriving DecidableEq, Repr

/-- Embeds `arr <= bound` for `arr = np.array(point)` and a scalar bound:
elementwise comparison. -/
def npLe : PyVal → ℚ → NpBool
  | .scalar x, b => .scalar (decide (x ≤ b))
  | .array xs, b => .array (xs.map fun x => decide (x ≤ b))

/-- Embeds `arr >= bound` for `arr = np.array(point)` and a scalar bound:
elementwise comparison. -/
def npGe : PyVal → ℚ → NpBool
  | .scalar x, b => .scalar (decide (b ≤ x))
  | .array xs, b => .array (xs.map fun x => decide (b ≤ x))

/-- Python truthiness of a numpy boolean result: defined for a 0-d boolean or
a size-1 array; for any other array numpy raises
`ValueError: The truth value of an array with more than one element is ambiguous`. -/
def truthy : NpBool → Except PyError Bool
  | .scalar b => .ok b
  | .array [b] => .ok b
  | .array _ => .error .valueError

/-- Python `a or b`: evaluates the truthiness of `a`; if truthy the result is
`a` itself, otherwise `b` (the second operand is never truth-tested). -/
def pyOr (a b : NpBool) : Except PyError NpBool :=
  match truthy a with
  | .error e => .error e
  | .ok true => .ok a
  | .ok false => .ok b

/-- Embeds `condition.all()`: conjunction over all elements. -/
def npAll : NpBool → Bool
  | .scalar b => b
  | .array bs => bs.all id

/-- Embeds line 77 of `simple.py`:
`condition = arr <= self.relative_bounds[1] or arr >= self.relative_bounds[0]`.
This line sits OUTSIDE the `try` block, so a `ValueError` raised here by the
truthiness test of `pyOr` escapes the generator. -/
def boundsCondition (low high : ℚ) (p : PyVal) : Except PyError NpBool :=
  pyOr (npLe p high) (npGe p low)

/-- What the filtering body of `_create_position_generator` does with one
candidate point. -/
inductive StepOutcome where
  | yield (v : PyVal)
  | skip
  | raise (e : PyError)
deriving DecidableEq, Repr

/-- Embeds the per-point body of `SequentialAgentBase._create_position_generator`
(lines 75-95 of `simple.py`) for configured bounds `(low, high)`:
the condition assignment runs first, outside the `try`; then `if condition:`
inside the `try`, whose `ValueError` handler falls back to `condition.all()`
(yielding `arr`, which holds the same values as the point). A point that fails
the test is skipped with a logged warning (logging is not modelled). -/
def stepPoint (low high : ℚ) (p : PyVal) : StepOutcome :=
  match boundsCondition low high p with
  | .error e => .raise e
  | .ok condition =>
    match truthy condition with
    | .ok true => .yield p
    | .ok false => .skip
    | .error _ => if npAll condition then .yield p else .skip

/-- One `next()` on the position generator: scans the remaining suffix of the
sequence, yielding the first point that passes the bounds test (every point,
when no bounds are configured), raising `StopIteration` at the end of the
sequence, and propagating a `ValueError` escaping the condition line.
Returns the un-consumed suffix alongside the outcome. -/
def drawNext (bounds : Option (ℚ × ℚ)) : List PyVal → Except (PyError × List PyVal) (PyVal × List PyVal)
  | [] => .error (.stopIteration, [])
  | p :: rest =>
    match bounds with
    | none => .ok (p, rest)
    | some (low, high) =>
      match stepPoint low high p with
      | .yield v => .ok (v, rest)
      | .skip => drawNext (some (low, high)) rest
      | .raise e => .error (e, rest)

/-- The loop body of `SequentialAgentBase.ask` (lines 106-108 of `simple.py`):
for each of `batch_size` iterations, `self.ask_count += 1` and then
`doc["proposal"].append(next(self._position_generator))`.  The counter is
incremented BEFORE the draw, so a failing draw still counts; on failure the
exception propagates and the locally accumulated proposals are lost. -/
def askLoop (bounds : Option (ℚ × ℚ)) :
    ℕ → List PyVal → ℕ → List PyVal → Except (PyError × ℕ × List PyVal) (List PyVal × ℕ × List PyVal)
  | 0, rem, cnt, acc => .ok (acc, cnt, rem)
  | k + 1, rem, cnt, acc =>
    match drawNext bounds rem with
    | .ok (p, rest) => askLoop bounds k rest (cnt + 1) (acc ++ [p])
    | .error (e, rest) => .error (e, cnt + 1, rest)

/-- The document returned by `tell`: every value is a one-element list, per the
document-publication convention of the surrounding framework. -/
structure TellDoc (α β : Type) where
  independent_variable : List α
  observable : List β
  cache_len : List ℕ
deriving DecidableEq, Repr

/-- The document returned by `SequentialAgentBase.ask`. -/
structure AskDoc where
  proposal : List PyVal
  ask_count : List ℕ
deriving DecidableEq, Repr

/-- The document returned by `SequentialAgentBase.report`. -/
structure SeqReportDoc where
  percent_completion : List ℚ
deriving DecidableEq, Repr

/-- State of a `SequentialAgentBase` instance: the constructor arguments plus
the mutable attributes, with the single-pass position generator represented by
the not-yet-consumed suffix of the sequence. -/
structure SequentialAgentBase where
  sequence : List PyVal
  relative_bounds : Option (ℚ × ℚ)
  genRemaining : List PyVal
  ask_count : ℕ
  independent_cache : List PyVal
  observable_cache : List PyVal
deriving DecidableEq, Repr

/-- `SequentialAgentBase.__init__`: empty caches, zero counter, a fresh
generator over the whole sequence. -/
def SequentialAgentBase.fresh (seq : List PyVal) (bounds : Option (ℚ × ℚ)) : SequentialAgentBase :=
  { sequence := seq
    relative_bounds := bounds
    genRemaining := seq
    ask_count := 0
    independent_cache := []
    observable_cache := [] }

/-- `SequentialAgentBase.tell` (lines 99-102): appends `x` and `y` to the two
caches unconditionally and returns the tell document, whose `cache_len` is the
length after the append. -/
def SequentialAgentBase.tell (s : SequentialAgentBase) (x y : PyVal) :
    TellDoc PyVal PyVal × SequentialAgentBase :=
  let ic := s.independent_cache ++ [x]
  let oc := s.observable_cache ++ [y]
  ({ independent_variable := [x], observable := [y], cache_len := [ic.length] },
   { s with independent_cache := ic, observable_cache := oc })

/-- Runs a list of `tell` calls over a sequential agent, keeping the state. -/
def SequentialAgentBase.tellMany (s : SequentialAgentBase) :
    List (PyVal × PyVal) → SequentialAgentBase
  | [] => s
  | c :: cs => ((s.tell c.1 c.2).2).tellMany cs

/-- `SequentialAgentBase.ask` (lines 104-110): draws `batch_size` points from
the position generator, incrementing `ask_count` once per draw attempt, and
returns `(doc, doc["proposal"])`; an exception from the generator propagates,
leaving the incremented counter and the advanced generator behind. -/
def SequentialAgentBase.ask (s : SequentialAgentBase) (batch_size : ℕ) :
    Except (PyError × SequentialAgentBase) (AskDoc × List PyVal × SequentialAgentBase) :=
  match askLoop s.relative_bounds batch_size s.genRemaining s.ask_count [] with
  | .ok (props, cnt, rem) =>
    .ok ({ proposal := props, ask_count := [cnt] }, props,
         { s with ask_count := cnt, genRemaining := rem })
  | .error (e, cnt, rem) =>
    .error (e, { s with ask_count := cnt, genRemaining := rem })

/-- Python integer/float division, raising `ZeroDivisionError` on a zero
denominator. -/
def pyDiv (a b : ℚ) : Except PyError ℚ :=
  if b = 0 then .error .zeroDivisionError else .ok (a / b)

/-- `SequentialAgentBase.report` (lines 112-113): returns
`dict(percent_completion=[self.ask_count / len(self.sequence)])`. -/
def SequentialAgentBase.report (s : SequentialAgentBase) : Except PyError SeqReportDoc :=
  match pyDiv (s.ask_count : ℚ) (s.sequence.length : ℚ) with
  | .error e => .error e
  | .ok p => .ok { percent_completion := [p] }

/-- Python comparison `a < b` on 2-tuples: lexicographic, first components
compared first, ties broken by the second components. -/
def pyTupleLt (a b : ℚ × ℚ) : Bool :=
  decide (a.1 < b.1) || (decide (a.1 = b.1) && decide (a.2 < b.2))

/-- Inserts an element into an already sorted list, placing it before the
first element that is not strictly below it. The inserted element originates
earlier in the input than the list elements, so putting it before
order-equivalent elements preserves the stability of Python `sorted`. -/
def insertOrdered (lt : α → α → Bool) (x : α) : List α → List α
  | [] => [x]
  | y :: ys => if lt y x then y :: insertOrdered lt x ys else x :: y :: ys

/-- A stable comparison sort (insertion sort): the elements earlier in the
input come first among order-equivalent elements, as with Python `sorted`. -/
def stableSort (lt : α → α → Bool) : List α → List α
  | [] => []
  | x :: xs => insertOrdered lt x (stableSort lt xs)

/-- Embeds `sorted(zip(independent_cache, observable_cache))` from lines 164
and 193 of `simple.py`: Python sorts the (x, y) tuples in ascending
lexicographic tuple order. -/
def pySortedPairs (l : List (ℚ × ℚ)) : List (ℚ × ℚ) :=
  stableSort pyTupleLt l

/-- Embeds `np.array([x for _, x in sorted(zip(independent_cache, observable_cache))])`:
the array handed to the model by the decomposition and cluster reports. -/
def sortedObservables (xs ys : List ℚ) : List ℚ :=
  (pySortedPairs (xs.zip ys)).map Prod.snd

/-- The sort described by the spec for comparison: a stable sort of the
(x, y) pairs keyed on `x` alone, pairs with equal `x` keeping their original
relative order. -/
def specStableSortByX (l : List (ℚ × ℚ)) : List (ℚ × ℚ) :=
  stableSort (fun a b => decide (a.1 < b.1)) l

/-- The array the spec says is handed to the model: observable values in the
order of the stable sort keyed on the independent value alone. -/
def specSortedObservables (xs ys : List ℚ) : List ℚ :=
  (specStableSortByX (xs.zip ys)).map Prod.snd

/-- State shared by `SklearnEstimatorAgentBase` and its subclasses: the two
parallel caches, the held model of type `M`, and the tell cache.

The field `tell_cache` is Modelled from the spec: it belongs to the external
`bluesky_adaptive.agents.base.Agent` class, which is not under `src/`; per the
spec, `tell` "records a new observation pair into an agent cache" and the
reports return `latest_data: most recently told pair`, so it is modelled as
the list of told pairs. -/
structure SklearnEstimatorAgentBase (M : Type) where
  independent_cache : List ℚ
  observable_cache : List ℚ
  tell_cache : List (ℚ × ℚ)
  model : M
deriving DecidableEq, Repr

/-- `SklearnEstimatorAgentBase.__init__`: empty caches, the supplied estimator. -/
def SklearnEstimatorAgentBase.fresh (m : M) : SklearnEstimatorAgentBase M :=
  { independent_cache := [], observable_cache := [], tell_cache := [], model := m }

/-- `SklearnEstimatorAgentBase.tell` (lines 133-136): appends `x` and `y` to
the two caches unconditionally and returns the tell document. -/
def SklearnEstimatorAgentBase.tell (s : SklearnEstimatorAgentBase M) (x y : ℚ) :
    TellDoc ℚ ℚ × SklearnEstimatorAgentBase M :=
  let ic := s.independent_cache ++ [x]
  let oc := s.observable_cache ++ [y]
  ({ independent_variable := [x], observable := [y], cache_len := [ic.length] },
   { s with independent_cache := ic, observable_cache := oc })

/-- Runs a list of `tell` calls over an estimator agent, keeping the state. -/
def SklearnEstimatorAgentBase.tellMany (s : SklearnEstimatorAgentBase M) :
    List (ℚ × ℚ) → SklearnEstimatorAgentBase M
  | [] => s
  | c :: cs => ((s.tell c.1 c.2).2).tellMany cs

/-- Modelled from the spec: the external base `Agent` framework (not under
`src/`) drives `tell` and records the told observation pair in `tell_cache`,
which the reports read as `latest_data`. This wraps the mixin `tell` of
`simple.py` with that recording step. -/
def SklearnEstimatorAgentBase.frameworkTell (s : SklearnEstimatorAgentBase M) (x y : ℚ) :
    SklearnEstimatorAgentBase M :=
  let s1 := (s.tell x y).2
  { s1 with tell_cache := s1.tell_cache ++ [(x, y)] }

/-- `SklearnEstimatorAgentBase.ask` (lines 138-139): `raise NotImplementedError`.
No attribute is touched, so the propagated state is the input state. -/
def SklearnEstimatorAgentBase.ask (s : SklearnEstimatorAgentBase M) (batch_size : ℕ) :
    Except (PyError × SklearnEstimatorAgentBase M) (AskDoc × List PyVal × SklearnEstimatorAgentBase M) :=
  .error (.notImplementedError, s)

/-- A decomposition estimator: `fit_transform` maps the observation array to
the weights array; `components_` is the optionally present fitted attribute
(absence makes the Python attribute access raise `AttributeError`). -/
structure DecompositionModel where
  fit_transform : List ℚ → List (List ℚ)
  components_ : Option (List (List ℚ))

/-- The document returned by `DecompositionAgentBase.report`. -/
structure DecompReportDoc where
  weights : List (List (List ℚ))
  components : List (List (List ℚ))
  cache_len : List ℕ
  latest_data : List (ℚ × ℚ)

/-- `DecompositionAgentBase` state: the estimator base holding a decomposition
model. -/
abbrev DecompositionAgentBase := SklearnEstimatorAgentBase DecompositionModel

/-- `DecompositionAgentBase.report` (lines 162-176): fit-transforms the model
on the sorted observable array to get `weights`; reads `components_` under a
`try`, substituting `[]` when the attribute is absent; returns the document
with `latest_data=[self.tell_cache[-1]]` (an `IndexError` when that cache is
empty). -/
def DecompositionAgentBase.report (s : DecompositionAgentBase) :
    Except PyError DecompReportDoc :=
  let arr := sortedObservables s.independent_cache s.observable_cache
  let weights := s.model.fit_transform arr
  let components :=
    match s.model.components_ with
    | some c => c
    | none => []
  match s.tell_cache.getLast? with
  | none => .error .indexError
  | some last =>
    .ok { weights := [weights]
          components := [components]
          cache_len := [s.independent_cache.length]
          latest_data := [last] }

/-- The state a cluster model exposes once `fit` has run: per-point cluster
labels via `predict`, per-point distances to the centroids via `transform`,
and the fitted attribute `cluster_centers_`. -/
structure FittedClusterModel where
  predict : List ℚ → List ℕ
  transform : List ℚ → List (List ℚ)
  cluster_centers_ : List (List ℚ)

/-- A cluster estimator: `fit` installs the fitted state derived from the
array it is given. -/
structure ClusterModel where
  fit : List ℚ → FittedClusterModel

/-- The document returned by `ClusterAgentBase.report`. -/
structure ClusterReportDoc where
  clusters : List (List ℕ)
  distances : List (List (List ℚ))
  cluster_centers : List (List (List ℚ))
  cache_len : List ℕ
  latest_data : List (ℚ × ℚ)

/-- `ClusterAgentBase` state: the estimator base holding a cluster model. -/
abbrev ClusterAgentBase := SklearnEstimatorAgentBase ClusterModel

/-- `ClusterAgentBase.report` (lines 192-204): fits the model on the sorted
observable array, predicts per-point clusters, computes distances via
`transform`, and returns the document with `latest_data=[self.tell_cache[-1]]`
(an `IndexError` when that cache is empty). -/
def ClusterAgentBase.report (s : ClusterAgentBase) : Except PyError ClusterReportDoc :=
  let arr := sortedObservables s.independent_cache s.observable_cache
  let fitted := s.model.fit arr
  match s.tell_cache.getLast? with
  | none => .error .indexError
  | some last =>
    .ok { clusters := [fitted.predict arr]
          distances := [fitted.transform arr]
          cluster_centers := [fitted.cluster_centers_]
          cache_len := [s.independent_cache.length]
          latest_data := [last] }

/-- A sequential agent over ten points of which three have been consumed, for
concrete runs. -/
def seqAgentConsumed3of10 : SequentialAgentBase :=
  { sequence := List.replicate 10 (.scalar 0)
    relative_bounds := none
    genRemaining := List.replicate 7 (.scalar 0)
    ask_count := 3
    independent_cache := []
    observable_cache := [] }

/-- A fresh sequential agent over an empty sequence, for concrete runs. -/
def seqAgentEmptySequence : SequentialAgentBase :=
  SequentialAgentBase.fresh [] none

/-- A fresh sequential agent over a single point, for concrete runs. -/
def seqAgentOnePoint : SequentialAgentBase :=
  SequentialAgentBase.fresh [.scalar 4] none

/-- A fresh sequential agent over three points, for concrete runs. -/
def seqAgentThreePoints : SequentialAgentBase :=
  SequentialAgentBase.fresh [.scalar 1, .scalar 2, .scalar 3] none

/-- A decomposition model whose `components_` attribute is absent, for
concrete runs. -/
def decompModelNoComponents : DecompositionModel :=
  { fit_transform := fun _ => [], components_ := none }

/-- A decomposition model whose `components_` attribute is present, for
concrete runs. -/
def decompModelWithComponents : DecompositionModel :=
  { fit_transform := fun _ => [], components_ := some [[1]] }

/-- A decomposition agent holding one observation and a model without
`components_`, for concrete runs. -/
def decompAgentNoComponents : DecompositionAgentBase :=
  { independent_cache := [0]
    observable_cache := [1]
    tell_cache := [(0, 1)]
    model := decompModelNoComponents }

/-- A decomposition agent holding one observation and a model with
`components_`, for concrete runs. -/
def decompAgentWithComponents : DecompositionAgentBase :=
  { independent_cache := [0]
    observable_cache := [1]
    tell_cache := [(0, 1)]
    model := decompModelWithComponents }

/-- Helper: running a batch of tells appends the first components to the
independent cache and the second components to the observable cache of a
sequential agent. -/
theorem SequentialAgentBase.tellMany_caches_seq (calls : List (PyVal × PyVal))
    (s : SequentialAgentBase) :
    (s.tellMany calls).independent_cache = s.independent_cache ++ calls.map Prod.fst ∧
    (s.tellMany calls).observable_cache = s.observable_cache ++ calls.map Prod.snd := by
  induction calls generalizing s with
  | nil => simp [tellMany]
  | cons c cs ih =>
    obtain ⟨h1, h2⟩ := ih ((s.tell c.1 c.2).2)
    refine ⟨?_, ?_⟩
    · show ((s.tell c.1 c.2).2.tellMany cs).independent_cache =
        s.independent_cache ++ List.map Prod.fst (c :: cs)
      rw [h1]
      simp [SequentialAgentBase.tell]
    · show ((s.tell c.1 c.2).2.tellMany cs).observable_cache =
        s.observable_cache ++ List.map Prod.snd (c :: cs)
      rw [h2]
      simp [SequentialAgentBase.tell]

/-- Helper: the same cache characterisation for the estimator base. -/
theorem SklearnEstimatorAgentBase.tellMany_caches_est {M : Type} (calls : List (ℚ × ℚ))
    (s : SklearnEstimatorAgentBase M) :
    (s.tellMany calls).independent_cache = s.independent_cache ++ calls.map Prod.fst ∧
    (s.tellMany calls).observable_cache = s.observable_cache ++ calls.map Prod.snd := by
  induction calls generalizing s with
  | nil => simp [tellMany]
  | cons c cs ih =>
    obtain ⟨h1, h2⟩ := ih ((s.tell c.1 c.2).2)
    refine ⟨?_, ?_⟩
    · show ((s.tell c.1 c.2).2.tellMany cs).independent_cache =
        s.independent_cache ++ List.map Prod.fst (c :: cs)
      rw [h1]
      simp [SklearnEstimatorAgentBase.tell]
    · show ((s.tell c.1 c.2).2.tellMany cs).observable_cache =
        s.observable_cache ++ List.map Prod.snd (c :: cs)
      rw [h2]
      simp [SklearnEstimatorAgentBase.tell]

/-- C1: for a sequential agent with scalar relative bounds `(low, high)`,
the per-point generator test keeps a scalar point exactly when it is
`<= high` or `>= low`, and skips it otherwise; in particular with bounds
`(5, 10)` the points `12` and `7` are both kept. -/
theorem stepPoint_scalar_or_semantics (low high x : ℚ) :
    stepPoint low high (PyVal.scalar x) =
      (if x ≤ high ∨ low ≤ x then StepOutcome.yield (PyVal.scalar x) else StepOutcome.skip) ∧
    stepPoint 5 10 (PyVal.scalar 12) = StepOutcome.yield (PyVal.scalar 12) ∧
    stepPoint 5 10 (PyVal.scalar 7) = StepOutcome.yield (PyVal.scalar 7) := by
  refine ⟨?_, by decide, by decide⟩
  by_cases h1 : x ≤ high <;> by_cases h2 : low ≤ x <;>
    simp [stepPoint, boundsCondition, pyOr, npLe, npGe, truthy, h1, h2]

/-- C2: a two-element array point with scalar bounds `(5, 10)` makes the
condition line raise an uncaught `ValueError` (the ambiguous truth value of a
multi-element boolean array), even though every element passes the OR test;
the error escapes through `ask` after the counter increment, instead of the
point being kept or skipped. -/
theorem array_point_bounds_raises :
    stepPoint 5 10 (PyVal.array [7, 12]) = StepOutcome.raise PyError.valueError ∧
    (SequentialAgentBase.fresh [PyVal.array [7, 12]] (some (5, 10))).ask 1 =
      .error (PyError.valueError,
        { SequentialAgentBase.fresh [PyVal.array [7, 12]] (some (5, 10)) with
          ask_count := 1, genRemaining := [] }) := by
  exact ⟨rfl, rfl⟩

/-- C3: starting from a fresh sequential or estimator agent, any batch of
`tell(x, y)` calls leaves the independent cache holding exactly the `x`
values and the observable cache holding exactly the `y` values, in call
order; the two caches always have equal length, and the i-th entries of the
two caches are the arguments of the i-th call. -/
theorem tell_parallel_caches (seq : List PyVal) (bounds : Option (ℚ × ℚ))
    (calls : List (PyVal × PyVal)) (M : Type) (m : M) (callsE : List (ℚ × ℚ)) :
    (((SequentialAgentBase.fresh seq bounds).tellMany calls).independent_cache =
        calls.map Prod.fst ∧
      ((SequentialAgentBase.fresh seq bounds).tellMany calls).observable_cache =
        calls.map Prod.snd ∧
      ((SequentialAgentBase.fresh seq bounds).tellMany calls).independent_cache.length =
        ((SequentialAgentBase.fresh seq bounds).tellMany calls).observable_cache.length ∧
      ∀ i : ℕ,
        ((SequentialAgentBase.fresh seq bounds).tellMany calls).independent_cache[i]? =
          (calls[i]?).map Prod.fst ∧
        ((SequentialAgentBase.fresh seq bounds).tellMany calls).observable_cache[i]? =
          (calls[i]?).map Prod.snd) ∧
    (((SklearnEstimatorAgentBase.fresh m).tellMany callsE).independent_cache =
        callsE.map Prod.fst ∧
      ((SklearnEstimatorAgentBase.fresh m).tellMany callsE).observable_cache =
        callsE.map Prod.snd ∧
      ((SklearnEstimatorAgentBase.fresh m).tellMany callsE).independent_cache.length =
        ((SklearnEstimatorAgentBase.fresh m).tellMany callsE).observable_cache.length) := by
  obtain ⟨h1, h2⟩ := SequentialAgentBase.tellMany_caches_seq calls (SequentialAgentBase.fresh seq bounds)
  obtain ⟨h3, h4⟩ :=
    SklearnEstimatorAgentBase.tellMany_caches_est callsE (SklearnEstimatorAgentBase.fresh m)
  rw [show (SequentialAgentBase.fresh seq bounds).independent_cache = [] from rfl,
    List.nil_append] at h1
  rw [show (SequentialAgentBase.fresh seq bounds).observable_cache = [] from rfl,
    List.nil_append] at h2
  rw [show (SklearnEstimatorAgentBase.fresh m).independent_cache = [] from rfl,
    List.nil_append] at h3
  rw [show (SklearnEstimatorAgentBase.fresh m).observable_cache = [] from rfl,
    List.nil_append] at h4
  refine ⟨⟨h1, h2, ?_, ?_⟩, h3, h4, ?_⟩
  · rw [h1, h2]; simp
  · intro i
    rw [h1, h2]
    simp
  · rw [h3, h4]; simp

/-- Helper: with no bounds configured and at least `k` points remaining, the
ask loop draws the next `k` points in order and adds `k` to the counter. -/
theorem askLoop_none_ok (k : ℕ) :
    ∀ (rem : List PyVal) (cnt : ℕ) (acc : List PyVal), k ≤ rem.length →
      askLoop none k rem cnt acc = .ok (acc ++ rem.take k, cnt + k, rem.drop k) := by
  induction k with
  | zero => intro rem cnt acc _; simp [askLoop]
  | succ k ih =>
    intro rem cnt acc h
    match rem with
    | [] => simp at h
    | p :: rest =>
      show askLoop none (k + 1) (p :: rest) cnt acc = _
      rw [show askLoop none (k + 1) (p :: rest) cnt acc =
        askLoop none k rest (cnt + 1) (acc ++ [p]) from rfl]
      rw [ih rest (cnt + 1) (acc ++ [p]) (by simpa using h)]
      simp [List.append_assoc]
      omega

/-- Helper: with no bounds configured and fewer points remaining than
requested, the ask loop consumes everything, increments the counter once more
for the failing draw, and propagates `StopIteration`. -/
theorem askLoop_none_exhaust (k : ℕ) :
    ∀ (rem : List PyVal) (cnt : ℕ) (acc : List PyVal), rem.length < k →
      askLoop none k rem cnt acc = .error (.stopIteration, cnt + rem.length + 1, []) := by
  induction k with
  | zero => intro rem cnt acc h; omega
  | succ k ih =>
    intro rem cnt acc h
    match rem with
    | [] => rfl
    | p :: rest =>
      rw [show askLoop none (k + 1) (p :: rest) cnt acc =
        askLoop none k rest (cnt + 1) (acc ++ [p]) from rfl]
      rw [ih rest (cnt + 1) (acc ++ [p]) (by simpa using h)]
      simp
      omega

/-- C4: on a sequential agent with no relative bounds whose generator still
holds at least `k` points, `ask(batch_size=k)` succeeds, returning the
document and the proposal list holding exactly the next `k` points in
original order, with the documented `ask_count` equal to the counter after
the batch and the counter increased by exactly `k`. -/
theorem ask_unbounded_batch (s : SequentialAgentBase) (k : ℕ)
    (hb : s.relative_bounds = none) (hk : k ≤ s.genRemaining.length) :
    s.ask k =
      .ok ({ proposal := s.genRemaining.take k, ask_count := [s.ask_count + k] },
        s.genRemaining.take k,
        { s with ask_count := s.ask_count + k, genRemaining := s.genRemaining.drop k }) := by
  rw [SequentialAgentBase.ask, hb, askLoop_none_ok k s.genRemaining s.ask_count [] hk]
  simp

/-- Witness for C4: asking for two points on a fresh agent over three points
returns the first two points and a counter of two. -/
theorem ask_unbounded_batch_witness :
    seqAgentThreePoints.ask 2 =
      .ok ({ proposal := [PyVal.scalar 1, PyVal.scalar 2], ask_count := [2] },
        [PyVal.scalar 1, PyVal.scalar 2],
        { seqAgentThreePoints with ask_count := 2, genRemaining := [PyVal.scalar 3] }) := by
  rw [ask_unbounded_batch seqAgentThreePoints 2 rfl (by decide)]
  rfl

/-- C10: on a sequential agent with no relative bounds, asking for more
points than the `j` remaining fails with the propagated `StopIteration`; the
counter has nevertheless moved up by `j + 1` (one per successful draw plus
one for the failing draw, not rolled back), and the `j` points already drawn
are not part of the result. -/
theorem ask_exhaustion_not_atomic (s : SequentialAgentBase) (k j : ℕ)
    (hb : s.relative_bounds = none) (hj : s.genRemaining.length = j) (hjk : j < k) :
    s.ask k =
      .error (PyError.stopIteration,
        { s with ask_count := s.ask_count + j + 1, genRemaining := [] }) := by
  rw [SequentialAgentBase.ask, hb,
    askLoop_none_exhaust k s.genRemaining s.ask_count [] (by omega)]
  rw [hj]

/-- Witness for C10: asking for three points on a fresh agent over one point
fails with `StopIteration` and leaves the counter at two. -/
theorem ask_exhaustion_not_atomic_witness :
    seqAgentOnePoint.ask 3 =
      .error (PyError.stopIteration,
        { seqAgentOnePoint with ask_count := 2, genRemaining := [] }) := by
  rw [ask_exhaustion_not_atomic seqAgentOnePoint 3 1 rfl rfl (by omega)]
  rfl

/-- C5: `report` on a sequential agent returns the one-element list holding
`ask_count` divided by the sequence length when the sequence is non-empty,
and raises `ZeroDivisionError` when the sequence is empty. -/
theorem sequential_report_percent (s : SequentialAgentBase) :
    (s.sequence ≠ [] →
      s.report =
        .ok { percent_completion := [(s.ask_count : ℚ) / (s.sequence.length : ℚ)] }) ∧
    (s.sequence = [] → s.report = .error PyError.zeroDivisionError) := by
  constructor
  · intro h
    have hz : ((s.sequence.length : ℚ)) ≠ 0 := by
      simp only [ne_eq, Nat.cast_eq_zero, List.length_eq_zero]
      exact h
    simp [SequentialAgentBase.report, pyDiv, hz]
  · intro h
    simp [SequentialAgentBase.report, pyDiv, h]

/-- Witness for C5: after consuming three of ten points the report holds
three tenths; on an empty sequence the report raises. -/
theorem sequential_report_percent_witness :
    seqAgentConsumed3of10.report = .ok { percent_completion := [(3 : ℚ) / 10] } ∧
    seqAgentEmptySequence.report = .error PyError.zeroDivisionError := by
  constructor
  · rw [(sequential_report_percent seqAgentConsumed3of10).1 (by decide)]
    norm_num [seqAgentConsumed3of10]
  · exact (sequential_report_percent seqAgentEmptySequence).2 rfl

/-- C6: calling `ask` on the passive estimator base always raises
`NotImplementedError`, never returns a result, and leaves the whole agent
state (caches and model) exactly as it was. -/
theorem estimator_ask_not_implemented (M : Type) (s : SklearnEstimatorAgentBase M) (k : ℕ) :
    s.ask k = .error (PyError.notImplementedError, s) ∧
    ∀ r, s.ask k ≠ .ok r := by
  exact ⟨rfl, by simp [SklearnEstimatorAgentBase.ask]⟩

/-- Helper: inserting into a list is a permutation of consing. -/
theorem insertOrdered_perm {α : Type} (lt : α → α → Bool) (x : α) (l : List α) :
    (insertOrdered lt x l).Perm (x :: l) := by
  induction l with
  | nil => exact List.Perm.refl _
  | cons y ys ih =>
    cases hly : lt y x with
    | true =>
      simp only [insertOrdered, hly, if_true]
      exact (ih.cons y).trans (List.Perm.swap x y ys)
    | false =>
      simp only [insertOrdered, hly, Bool.false_eq_true, if_false]
      exact List.Perm.refl _

/-- Helper: the stable sort is a permutation of its input. -/
theorem stableSort_perm {α : Type} (lt : α → α → Bool) (l : List α) :
    (stableSort lt l).Perm l := by
  induction l with
  | nil => exact List.Perm.refl _
  | cons x xs ih => exact (insertOrdered_perm lt x (stableSort lt xs)).trans (ih.cons x)

/-- Helper: two comparisons that agree against the inserted element on every
list member give the same insertion. -/
theorem insertOrdered_congr {α : Type} (lt1 lt2 : α → α → Bool) (x : α) (l : List α)
    (h : ∀ y ∈ l, lt1 y x = lt2 y x) :
    insertOrdered lt1 x l = insertOrdered lt2 x l := by
  induction l with
  | nil => rfl
  | cons y ys ih =>
    have hy := h y (List.mem_cons_self y ys)
    have hys := fun z hz => h z (List.mem_cons_of_mem y hz)
    simp only [insertOrdered, hy, ih hys]

/-- Helper: when no two pairs share a first component, the Python
lexicographic tuple sort and the stable sort keyed on the first component
alone agree. -/
theorem pySortedPairs_eq_spec_of_distinct_keys (l : List (ℚ × ℚ))
    (h : l.Pairwise fun a b => a.1 ≠ b.1) :
    pySortedPairs l = specStableSortByX l := by
  induction l with
  | nil => rfl
  | cons p rest ih =>
    have hp := (List.pairwise_cons.mp h).1
    have hrest := (List.pairwise_cons.mp h).2
    show insertOrdered pyTupleLt p (pySortedPairs rest) =
      insertOrdered (fun a b => decide (a.1 < b.1)) p (specStableSortByX rest)
    rw [show pySortedPairs rest = stableSort pyTupleLt rest from rfl] at *
    rw [ih hrest]
    apply insertOrdered_congr
    intro q hq
    have hqr : q ∈ rest := (stableSort_perm _ rest).mem_iff.mp hq
    have hne : q.1 ≠ p.1 := fun e => hp q hqr e.symm
    simp [pyTupleLt, hne]

/-- C7 counterexample: with cached independent values `[1, 1]` and observable
values `[5, 2]`, the code hands the model `[2, 5]` (lexicographic tuple sort,
equal `x` broken by ascending `y`) while a stable sort keyed on `x` alone
would keep the original order and give `[5, 2]`. -/
theorem sortedObservables_not_stable_by_x :
    sortedObservables [1, 1] [5, 2] = [2, 5] ∧
    specSortedObservables [1, 1] [5, 2] = [5, 2] ∧
    sortedObservables [1, 1] [5, 2] ≠ specSortedObservables [1, 1] [5, 2] := by
  refine ⟨rfl, rfl, by decide⟩

/-- C7 (amended): the array passed to the model is the observable values of
the cached pairs sorted in ascending lexicographic order on the whole
`(x, y)` tuple — pairs with equal `x` are ordered by ascending `y`, not by
original position; whenever no two cached pairs share an independent value
this coincides with the stable sort keyed on `x` alone described by the
spec. -/
theorem sortedObservables_matches_stable_on_distinct (xs ys : List ℚ)
    (h : (xs.zip ys).Pairwise fun a b => a.1 ≠ b.1) :
    sortedObservables xs ys = specSortedObservables xs ys := by
  show (pySortedPairs (xs.zip ys)).map Prod.snd = (specStableSortByX (xs.zip ys)).map Prod.snd
  rw [pySortedPairs_eq_spec_of_distinct_keys (xs.zip ys) h]

/-- Witness for the amended C7: with distinct independent values the two
orders agree. -/
theorem sortedObservables_matches_stable_on_distinct_witness :
    sortedObservables [2, 1] [9, 4] = specSortedObservables [2, 1] [9, 4] :=
  sortedObservables_matches_stable_on_distinct [2, 1] [9, 4] (by decide)

/-- C8: on a decomposition agent with a non-empty tell cache, `report`
returns the full document whether or not the fitted model exposes
`components_`: when the attribute is absent the `components` entry falls back
to the empty list, when present it holds the attribute value. -/
theorem decomposition_report_components_fallback (s : DecompositionAgentBase)
    (h : s.tell_cache ≠ []) :
    (s.model.components_ = none →
      (DecompositionAgentBase.report s).map DecompReportDoc.components = .ok [[]]) ∧
    (∀ c, s.model.components_ = some c →
      (DecompositionAgentBase.report s).map DecompReportDoc.components = .ok [c]) := by
  obtain ⟨last, hlast⟩ := Option.isSome_iff_exists.mp (List.getLast?_isSome.mpr h)
  constructor
  · intro hc
    unfold DecompositionAgentBase.report
    rw [hc, hlast]
    rfl
  · intro c hc
    unfold DecompositionAgentBase.report
    rw [hc, hlast]
    rfl

/-- Witness for C8: a concrete agent with the attribute absent still reports,
with empty components; one with the attribute present reports its value. -/
theorem decomposition_report_components_fallback_witness :
    (DecompositionAgentBase.report decompAgentNoComponents).map DecompReportDoc.components =
      .ok [[]] ∧
    (DecompositionAgentBase.report decompAgentWithComponents).map DecompReportDoc.components =
      .ok [[[1]]] := by
  constructor
  · exact (decomposition_report_components_fallback decompAgentNoComponents (by decide)).1 rfl
  · exact (decomposition_report_components_fallback decompAgentWithComponents (by decide)).2 [[1]] rfl

/-- C9: after a framework-driven `tell(x, y)`, the `latest_data` entry of both
the decomposition report and the cluster report is the one-element list
holding that most recently told pair. -/
theorem report_latest_data_is_last_tell (sD : DecompositionAgentBase)
    (sC : ClusterAgentBase) (x y : ℚ) :
    (DecompositionAgentBase.report (sD.frameworkTell x y)).map DecompReportDoc.latest_data =
      .ok [(x, y)] ∧
    (ClusterAgentBase.report (sC.frameworkTell x y)).map ClusterReportDoc.latest_data =
      .ok [(x, y)] := by
  have hD : (sD.frameworkTell x y).tell_cache.getLast? = some (x, y) := by
    simp [SklearnEstimatorAgentBase.frameworkTell, SklearnEstimatorAgentBase.tell]
  have hC : (sC.frameworkTell x y).tell_cache.getLast? = some (x, y) := by
    simp [SklearnEstimatorAgentBase.frameworkTell, SklearnEstimatorAgentBase.tell]
  constructor
  · unfold DecompositionAgentBase.report
    rw [hD]
    rfl
  · unfold ClusterAgentBase.report
    rw [hC]
    rfl

end BlueskyAdaptive
